import Mathlib

/-!
# Verification of the invoice_ocr document-ingestion scripts

Shallow embedding of the Python sources (`app.py`, `api.py`, `deploy_app.py`,
`migration.py`, `pippin_demo.py`, `table_view.py`, `prompts.py`).

Modelling conventions:
* Byte strings (file contents, PNG payloads) are Lean `String`s.
* Third-party library primitives that the scripts call as single opaque steps
  (PyMuPDF `fitz.open`, PIL PNG serialization, `base64.b64encode`,
  `json.loads`/`json.dumps`, the two LLM HTTP clients, SQLite inserts) are
  universally quantified function parameters, so every theorem holds for any
  behaviour of those libraries.  Fallible library calls are `Except`-valued.
* A PDF document is its list of pages; a `Page` carries its extractable text
  (`page.get_text()`) and the PNG bytes of its raster at the one pixmap matrix
  the repository ever uses (`fitz.Matrix(300/72, 300/72)`, proved to be the
  unique matrix in the C8 theorem).
-/

/-- A page of a PDF as PyMuPDF exposes it to this codebase: its extracted text
(`page.get_text()`) and the PNG bytes of `page.get_pixmap(matrix=fitz.Matrix(300/72,
300/72)).tobytes("png")`. -/
structure Page where
  text : String
  render300 : String
deriving DecidableEq

/-- A PIL image; `data` is the byte payload the image was opened from. -/
structure PILImage where
  data : String
deriving DecidableEq

/-- `PIL.Image.open` on a byte buffer. -/
def Image_open (bytes : String) : PILImage := ⟨bytes⟩

/-- An uploaded file: its declared content type (`uploaded_file.type` in the
Streamlit scripts, `file.content_type` in Flask) and its raw bytes
(`getvalue()` / `read()`). -/
structure UploadedFile where
  contentType : String
  bytes : String
deriving DecidableEq

/-- Python `f"...{x}..."` interpolation of an optional string: `None` prints as
`"None"`. -/
def optStr : Option String → String
  | some s => s
  | none => "None"

/-- `extract_text_from_pdf` (identical in app.py, api.py, deploy_app.py,
migration.py, pippin_demo.py): fold page texts onto `""` in page order. -/
def extract_text_from_pdf (doc : List Page) : String :=
  doc.foldl (fun t p => t ++ p.text) ""

/-- `convert_pdf_page_to_image` (app.py / api.py / deploy_app.py /
migration.py): rasterize the page at `fitz.Matrix(300/72, 300/72)` and open the
PNG bytes with PIL. -/
def convert_pdf_page_to_image (p : Page) : PILImage :=
  Image_open p.render300

/-- `encode_image_to_base64` (app.py / api.py / deploy_app.py /
pippin_demo.py): serialize the PIL image as PNG and base64-encode the bytes.
`png` models `image.save(buffered, format="PNG")`, `b64` models
`base64.b64encode(...).decode("utf-8")`. -/
def encode_image_to_base64 (png : PILImage → String) (b64 : String → String)
    (image : PILImage) : String :=
  b64 (png image)

/-- Result dictionary of `process_uploaded_file` in app.py / deploy_app.py. -/
structure FileData where
  type : String
  image : PILImage
  text : Option String
  document : Option (List Page)
  page_count : Nat
deriving DecidableEq

/-- `process_uploaded_file` (app.py; deploy_app.py is line-for-line identical):
on content type `application/pdf`, parse the bytes with `fitz.open` (modelled
by the parameter `fitzOpen`), extract the text of all pages, rasterize page 0
(`pdf_document[0]` raises `IndexError` on a zero-page document, modelled as
`.error`), and return the pdf dictionary; on any other content type open the
bytes with PIL and return the image dictionary. -/
def app_process_uploaded_file (fitzOpen : String → List Page)
    (uploaded_file : UploadedFile) : Except String FileData :=
  if uploaded_file.contentType = "application/pdf" then
    let pdf_document := fitzOpen uploaded_file.bytes
    let text := extract_text_from_pdf pdf_document
    match pdf_document with
    | [] => .error "IndexError: page 0 is not in document"
    | p0 :: _ =>
      .ok { type := "pdf"
            image := convert_pdf_page_to_image p0
            text := some text
            document := some pdf_document
            page_count := pdf_document.length }
  else
    .ok { type := "image"
          image := Image_open uploaded_file.bytes
          text := none
          document := none
          page_count := 1 }

/-- Result dictionary of `process_uploaded_file` in api.py (no `document` /
`page_count` keys there). -/
structure ApiFileData where
  type : String
  image : PILImage
  text : Option String
deriving DecidableEq

/-- `process_uploaded_file` (api.py): same branching as app.py, smaller result
dictionary. -/
def api_process_uploaded_file (fitzOpen : String → List Page)
    (file : UploadedFile) : Except String ApiFileData :=
  if file.contentType = "application/pdf" then
    let pdf_document := fitzOpen file.bytes
    let text := extract_text_from_pdf pdf_document
    match pdf_document with
    | [] => .error "IndexError: page 0 is not in document"
    | p0 :: _ =>
      .ok { type := "pdf"
            image := convert_pdf_page_to_image p0
            text := some text }
  else
    .ok { type := "image"
          image := Image_open file.bytes
          text := none }

/-! ## Provider request shapes (app.py, api.py, deploy_app.py, migration.py) -/

/-- One element of a Gemini `generate_content` content list: either a string or
a PIL image. -/
inductive GPart
  | text (s : String)
  | image (img : PILImage)
deriving DecidableEq

/-- One element of an OpenAI chat-message content list. -/
inductive OPart
  | text (s : String)
  | image_url (url : String)
deriving DecidableEq

/-- One OpenAI chat message. -/
structure OMessage where
  role : String
  content : List OPart
deriving DecidableEq

/-- The meta prompt chosen inside `get_gemini_response` (app.py) from the
document type. -/
def app_gemini_meta_prompt (document_type : String) : String :=
  if document_type = "Transporter Invoice" then
    "fetch all the fields associated with transporter"
  else
    "fetch all the fields associated with supplier"

/-- `prompts['supplier']` of prompts.py. -/
def prompts_supplier : String :=
  "\n    I want you to process the document with high accuracy to generate the following fields and return a json document with filled information \n        \x7b\n  \"vendorDetails\": \x7b\n    \"vendorName\": \"\",\n    \"gstAvailability\": \"\",\n    \"gstAmount\": \"\",\n    \"gstInternalAmount\": \"\",\n    \"gst\": \"\",\n    \"address\": \"\"\n  \x7d,\n  \"buyerDetails\": \x7b\n    \"buyerName\": \"\",\n    \"buyerGst\": \"\"\n  \x7d,\n  \"invoiceDetails\": \x7b\n    \"invoiceNumber\": \"\",\n    \"invoiceDate\": \"\",\n    \"poNumber\": \"\",\n    \"totalAmount\": \"\",\n    \"tcsAmount\": \"\"\n  \x7d,\n  \"addressDetails\": \x7b\n    \"billingAddress\": \x7b\n      \"billToName\": \"\",\n      \"billToAddress\": \"\"\n    \x7d,\n    \"shippingAddress\": \x7b\n      \"shipToName\": \"\",\n      \"shipToAddress\": \"\"\n    \x7d\n  \x7d,\n  \"transportDetails\": \x7b\n    \"vehicleNumber\": \"\",\n    \"loadingAddress\": \"\"\n  \x7d,\n  \"productDetails\": \x7b\n    \"productName\": \"\"\n  \x7d,\n  \"IRN_Number\":\"\"\n\x7d\n\n  NOTE : If the image is blurry or some information is missing then leave that part as empty string and highlight what parts are missing and why"

/-- `prompts['transporter']` of prompts.py. -/
def prompts_transporter : String :=
  " \n    I want you to process the document with high accuracy to generate the following fields and return a json document with filled information \n\n\n    \x7b\n  \"transporterBill\": \x7b\n    \"invoiceNumber\": \"\",\n    \"lrNumber\": \"\",\n    \"vehicleNumber\": \"\",\n    \"date\": \"\",\n    \"amount\": \"\"\n  \x7d\n\x7d\n    \n  NOTE : If the image is blurry or some information is missing then leave that part as empty string and highlight what parts are missing and why\n     "

/-- Content list built by `get_gemini_response` (app.py): the combined
instruction prompt (`f"{input_prompt}\n{meta_prompt}"`), the PDF text block
when the file is a PDF, the page image, and finally the user prompt. -/
def app_gemini_content (input_prompt : String) (file_data : FileData)
    (user_prompt document_type : String) : List GPart :=
  [GPart.text (input_prompt ++ "\n" ++ app_gemini_meta_prompt document_type)]
    ++ (if file_data.type = "pdf" then
          [GPart.text ("PDF Text Content:\n" ++ optStr file_data.text ++ "\n")]
        else [])
    ++ [GPart.image file_data.image, GPart.text user_prompt]

/-- Message list built by `get_openai_response` (app.py): a single user
message whose content is the context text (with the prompts.py meta prompt
chosen from the document type), the PDF text block when the file is a PDF, and
a `data:image/png;base64,...` image URL carrying the base64 of the PNG-encoded
page image. -/
def app_openai_messages (png : PILImage → String) (b64 : String → String)
    (file_data : FileData) (user_prompt document_type : String) : List OMessage :=
  let base64_image := encode_image_to_base64 png b64 file_data.image
  let meta_prompt :=
    if document_type = "Transporter Invoice" then prompts_transporter
    else prompts_supplier
  [{ role := "user"
     content :=
       [OPart.text ("Please analyze this document with the following context: "
           ++ meta_prompt ++ "\nQuestion: " ++ user_prompt)]
         ++ (if file_data.type = "pdf" then
               [OPart.text ("Document text content:\n" ++ optStr file_data.text)]
             else [])
         ++ [OPart.image_url ("data:image/png;base64," ++ base64_image)] }]

/-- The fixed instruction prompt of the api.py Gemini route. -/
def api_gemini_input_prompt : String :=
  "\n        You are an expert in analyzing invoices. Please extract and summarize the key information \n        from this invoice including total amount, date, vendor details, line items, and any other \n        relevant information. Present the information in a clear, structured format.\n        "

/-- Content list built inside `analyze_with_gemini` (api.py): instruction
prompt, PDF text block when the file is a PDF, then the page image. -/
def api_gemini_content (file_data : ApiFileData) : List GPart :=
  [GPart.text api_gemini_input_prompt]
    ++ (if file_data.type = "pdf" then
          [GPart.text ("PDF Text Content:\n" ++ optStr file_data.text ++ "\n")]
        else [])
    ++ [GPart.image file_data.image]

/-- The fixed text prompt of the api.py OpenAI route. -/
def api_openai_text_prompt : String :=
  "Please analyze this invoice and extract key information including total amount, date, vendor details, line items, and any other relevant information. Present the information in a clear, structured format."

/-- Message list built inside `analyze_with_openai` (api.py): one user message
with the text prompt, the PDF text block when the file is a PDF, then the
PNG data-URL image. -/
def api_openai_messages (png : PILImage → String) (b64 : String → String)
    (file_data : ApiFileData) : List OMessage :=
  let base64_image := encode_image_to_base64 png b64 file_data.image
  [{ role := "user"
     content :=
       [OPart.text api_openai_text_prompt]
         ++ (if file_data.type = "pdf" then
               [OPart.text ("Document text content:\n" ++ optStr file_data.text)]
             else [])
         ++ [OPart.image_url ("data:image/png;base64," ++ base64_image)] }]

/-! ## deploy_app.py: prompt lookup table and model dispatch -/

/-- `prompts['transporter']` of deploy_app.py. -/
def deploy_prompt_transporter : String :=
  "Analyze this transporter invoice and extract key information including:\n    - Invoice number\n    - Date\n    - Transportation charges\n    - GST details\n    - Vehicle details\n    - Route information"

/-- `prompts['supplier']` of deploy_app.py. -/
def deploy_prompt_supplier : String :=
  "Analyze this supplier bill and extract key information including:\n    - Bill number\n    - Date\n    - Item details\n    - Quantities\n    - Unit prices\n    - Total amount\n    - Tax details"

/-- `prompts['generic']` of deploy_app.py. -/
def deploy_prompt_generic : String :=
  "Please analyze this document and extract all relevant information including:\n    - Document type and purpose\n    - Key dates\n    - Important numbers and figures\n    - Significant parties involved\n    - Financial details if present\n    - Any special terms or conditions\n    - Notable observations or irregularities"

/-- `prompts['custom']` of deploy_app.py (the `{}` placeholder written as its
escape). -/
def deploy_prompt_custom : String :=
  "Analyze this document according to the following instructions: in JSON format\n\x7b\x7d "

/-- `prompts.get(key)` on the deploy_app.py dictionary. -/
def deploy_prompts_get (key : String) : Option String :=
  if key = "transporter" then some deploy_prompt_transporter
  else if key = "supplier" then some deploy_prompt_supplier
  else if key = "generic" then some deploy_prompt_generic
  else if key = "custom" then some deploy_prompt_custom
  else none

/-- Python `template.format(arg)` for a template with a single `{}` field. -/
def pyFormat1 (template arg : String) : String :=
  template.replace "\x7b\x7d" arg

/-- Python `s.lower()` (ASCII case folding, as in these document-type keys). -/
def pyLower (s : String) : String :=
  ⟨s.data.map Char.toLower⟩

/-- Python `s.replace(" ", "")`: drop every space. -/
def pyRemoveSpaces (s : String) : String :=
  ⟨s.data.filter (fun c => c ≠ ' ')⟩

/-- The meta-prompt selection at the top of `get_model_response`
(deploy_app.py): the custom template formatted with the custom prompt when the
type is "Document with Prompt", otherwise
`prompts.get(document_type.lower().replace(" ", ""), prompts['generic'])`. -/
def deploy_meta_prompt (document_type custom_prompt : String) : String :=
  if document_type = "Document with Prompt" then
    pyFormat1 deploy_prompt_custom custom_prompt
  else
    (deploy_prompts_get (pyRemoveSpaces (pyLower document_type))).getD
      deploy_prompt_generic

/-- The document-type radio options offered by deploy_app.py `main`. -/
def deploy_document_type_options : List String :=
  ["Generic Document", "Supplier Bill", "Transporter Invoice", "Document with Prompt"]

/-- Gemini content list built by the `provider == 'google'` branch of
`get_model_response` (deploy_app.py). -/
def deploy_gemini_content (input_prompt : String) (file_data : FileData)
    (user_prompt document_type custom_prompt : String) : List GPart :=
  let full_prompt := input_prompt ++ "\n" ++ deploy_meta_prompt document_type custom_prompt
  [GPart.text full_prompt]
    ++ (if file_data.type = "pdf" then
          [GPart.text ("PDF Text Content:\n" ++ optStr file_data.text ++ "\n")]
        else [])
    ++ [GPart.image file_data.image, GPart.text user_prompt]

/-- Message list built by the OpenAI branch of `get_model_response`
(deploy_app.py): content starts as `[full_prompt, jpeg-labelled data URL]` and
the PDF text block is `insert`ed at index 1 when the file is a PDF (the URL
label says jpeg but the payload is the PNG serialization). -/
def deploy_openai_messages (png : PILImage → String) (b64 : String → String)
    (input_prompt : String) (file_data : FileData)
    (document_type custom_prompt : String) : List OMessage :=
  let full_prompt := input_prompt ++ "\n" ++ deploy_meta_prompt document_type custom_prompt
  let base := [OPart.text full_prompt,
    OPart.image_url ("data:image/jpeg;base64," ++ encode_image_to_base64 png b64 file_data.image)]
  let content :=
    if file_data.type = "pdf" then
      base.insertIdx 1 (OPart.text ("PDF Text Content:\n" ++ optStr file_data.text ++ "\n"))
    else base
  [{ role := "user", content := content }]

/-! ## app.py: AI-service radio options and provider dispatch -/

/-- Which provider function a branch of app.py `main` invokes. -/
inductive ProviderCall
  | gemini
  | openai
deriving DecidableEq

/-- The AI-service radio options offered by app.py `main`. -/
def app_ai_service_options : List String :=
  ["Gemini Pro", "OpenAI GPT-4o"]

/-- The dispatch in app.py `main`:
`if ai_service == "Google Gemini": get_gemini_response(...) else:
get_openai_response(...)`. -/
def app_main_dispatch (ai_service : String) : ProviderCall :=
  if ai_service = "Google Gemini" then ProviderCall.gemini
  else ProviderCall.openai

/-! ## migration.py: analyze_invoice and the SQLite persistence loop -/

/-- A Python JSON value as `json.loads` can produce it. -/
inductive Json
  | null
  | bool (b : Bool)
  | num (q : ℚ)
  | str (s : String)
  | arr (elems : List Json)
  | obj (fields : List (String × Json))

/-- The fixed instruction prompt of `analyze_invoice` (migration.py). -/
def migration_input_prompt : String :=
  "\n        You are an expert in analyzing invoices. Please extract and structure the following information:\n        1. Invoice Number\n        2. Date\n        3. Vendor Details (Name, Address, Contact)\n        4. Bill To Information\n        5. Line Items (Product/Service, Quantity, Price)\n        6. Subtotal\n        7. Taxes\n        8. Total Amount\n        9. Payment Terms\n        10. Additional Notes or Terms\n\n        Return the information in a JSON format.\n        "

/-- Content list sent to Gemini by `analyze_invoice` (migration.py). -/
def migration_gemini_content (text : String) (image : PILImage) : List GPart :=
  [GPart.text migration_input_prompt,
   GPart.text ("PDF Text Content:\n" ++ text ++ "\n"),
   GPart.image image]

/-- `analyze_invoice` (migration.py).  The whole body is wrapped in
`try/except Exception`, so every failing step — `fitz.open` (parameter
`openDoc`), the page-0 index access on a zero-page document, the
`generate_content` HTTP call (parameter `generate`) — lands in the
`{"error": str(e)}` branch.  `loads` models `json.loads` (`none` =
`JSONDecodeError`), `dumps` models `json.dumps`. -/
def analyze_invoice (openDoc : String → Except String (List Page))
    (generate : List GPart → Except String String)
    (loads : String → Option Json) (dumps : Json → String)
    (pdf_path : String) : String :=
  match openDoc pdf_path with
  | .error e => dumps (Json.obj [("error", Json.str e)])
  | .ok pdf_document =>
    let text := extract_text_from_pdf pdf_document
    match pdf_document with
    | [] => dumps (Json.obj [("error", Json.str "IndexError: page 0 is not in document")])
    | p0 :: _ =>
      let image := convert_pdf_page_to_image p0
      match generate (migration_gemini_content text image) with
      | .error e => dumps (Json.obj [("error", Json.str e)])
      | .ok responseText =>
        match loads responseText with
        | some json_data => dumps json_data
        | none => dumps (Json.obj [("raw_analysis", Json.str responseText)])

/-- A row of the `invoice_data` table (the auto-increment id and timestamp are
assigned by SQLite and play no role in the claims; the row payload is the
unique file name and the opaque analysis JSON). -/
structure DBRow where
  file_name : String
  analysis_json : String
deriving DecidableEq

/-- The file names currently present in the store. -/
def dbNames (db : List DBRow) : List String :=
  db.map DBRow.file_name

/-- One iteration of the `process_invoices` loop (migration.py) for file
`fname`: first `SELECT file_name FROM invoice_data WHERE file_name = ?`; on a
hit the file is skipped (`continue`) with no analysis call.  Otherwise the
`try` block runs `analyze_invoice` and the `INSERT`; `attempt` models that
block (`.error` = an exception, caught by the `except` which `continue`s,
leaving the store unchanged; `.ok a` = the analysis string that gets
inserted). -/
def process_step (attempt : String → Except String String)
    (db : List DBRow) (fname : String) : List DBRow :=
  if fname ∈ dbNames db then db
  else
    match attempt fname with
    | .error _ => db
    | .ok a => db ++ [⟨fname, a⟩]

/-- `process_invoices` (migration.py): a single sequential `for` loop over the
globbed file list, threading the store through `process_step`. -/
def process_invoices (attempt : String → Except String String)
    (db : List DBRow) (files : List String) : List DBRow :=
  files.foldl (process_step attempt) db

/-- Instrumented variant of the loop that also records, in order, the file
names on which the `try` block (analysis + insert) is actually entered. -/
def process_step_traced (attempt : String → Except String String)
    (st : List DBRow × List String) (fname : String) : List DBRow × List String :=
  if fname ∈ dbNames st.1 then st
  else
    match attempt fname with
    | .error _ => (st.1, st.2 ++ [fname])
    | .ok a => (st.1 ++ [⟨fname, a⟩], st.2 ++ [fname])

/-- The loop with its trace of analysis attempts. -/
def process_invoices_traced (attempt : String → Except String String)
    (db : List DBRow) (files : List String) : List DBRow × List String :=
  files.foldl (process_step_traced attempt) (db, [])

/-! ## Pixmap matrices: every rasterization site in the repository -/

/-- `fitz.Matrix(a, b)` with exact rational entries. -/
structure FitzMatrix where
  a : ℚ
  b : ℚ
deriving DecidableEq

/-- The matrix passed to `page.get_pixmap` in `convert_pdf_page_to_image`
(app.py), per page. -/
def app_pixmap_matrix (_page : Page) : FitzMatrix := ⟨300/72, 300/72⟩

/-- The matrix passed to `page.get_pixmap` in `convert_pdf_page_to_image`
(api.py), per page. -/
def api_pixmap_matrix (_page : Page) : FitzMatrix := ⟨300/72, 300/72⟩

/-- The matrix passed to `page.get_pixmap` in `convert_pdf_page_to_image`
(deploy_app.py), per page. -/
def deploy_pixmap_matrix (_page : Page) : FitzMatrix := ⟨300/72, 300/72⟩

/-- The matrix passed to `page.get_pixmap` in `convert_pdf_page_to_image`
(migration.py), per page. -/
def migration_pixmap_matrix (_page : Page) : FitzMatrix := ⟨300/72, 300/72⟩

/-- The matrix passed to `page.get_pixmap` inside the page loop of
`convert_pdf_pages_to_images` (pippin_demo.py), per document and page
number. -/
def pippin_pixmap_matrix (_pdf_document : List Page) (_page_num : Nat) : FitzMatrix :=
  ⟨300/72, 300/72⟩

/-- The matrix passed to `page.get_pixmap` inside the preview loop of
`get_pdf_preview` (table_view.py), per file path and page number. -/
def tableview_pixmap_matrix (_file_path : String) (_page_num : Nat) : FitzMatrix :=
  ⟨300/72, 300/72⟩

/-! ## api.py: the two Flask endpoints -/

/-- The `file` entry of a Flask multipart request: its client-supplied file
name, declared content type and bytes. -/
structure FlaskFile where
  filename : String
  contentType : String
  bytes : String
deriving DecidableEq

/-- A request to one of the two endpoints: `file = none` models
`'file' not in request.files`. -/
structure FlaskRequest where
  file : Option FlaskFile
deriving DecidableEq

/-- A Flask JSON response: the `jsonify`d body and the HTTP status code. -/
structure FlaskResponse where
  body : Json
  status : Nat

/-- `/api/analyze/gemini` (api.py `analyze_with_gemini`).  The whole handler
body sits in `try/except Exception`; the 400 guards return before any
processing, every later exception (PDF parsing, page-0 access, the Gemini
HTTP call `generate`) is answered with `{'error': str(e)}, 500`, and success
with `{'analysis': response.text}` (status 200).  The returned `Bool` records
whether the provider API (`generate_content`) was invoked. -/
def analyze_with_gemini (fitzOpen : String → List Page)
    (generate : List GPart → Except String String)
    (req : FlaskRequest) : FlaskResponse × Bool :=
  match req.file with
  | none => (⟨Json.obj [("error", Json.str "No file provided")], 400⟩, false)
  | some file =>
    if file.filename = "" then
      (⟨Json.obj [("error", Json.str "No file selected")], 400⟩, false)
    else
      match api_process_uploaded_file fitzOpen ⟨file.contentType, file.bytes⟩ with
      | .error e => (⟨Json.obj [("error", Json.str e)], 500⟩, false)
      | .ok file_data =>
        match generate (api_gemini_content file_data) with
        | .error e => (⟨Json.obj [("error", Json.str e)], 500⟩, true)
        | .ok t => (⟨Json.obj [("analysis", Json.str t)], 200⟩, true)

/-- `/api/analyze/openai` (api.py `analyze_with_openai`): same guard and
`try/except` structure, with the OpenAI chat-completion call (`chat`) on the
api.py OpenAI message list. -/
def analyze_with_openai (fitzOpen : String → List Page)
    (png : PILImage → String) (b64 : String → String)
    (chat : List OMessage → Except String String)
    (req : FlaskRequest) : FlaskResponse × Bool :=
  match req.file with
  | none => (⟨Json.obj [("error", Json.str "No file provided")], 400⟩, false)
  | some file =>
    if file.filename = "" then
      (⟨Json.obj [("error", Json.str "No file selected")], 400⟩, false)
    else
      match api_process_uploaded_file fitzOpen ⟨file.contentType, file.bytes⟩ with
      | .error e => (⟨Json.obj [("error", Json.str e)], 500⟩, false)
      | .ok file_data =>
        match chat (api_openai_messages png b64 file_data) with
        | .error e => (⟨Json.obj [("error", Json.str e)], 500⟩, true)
        | .ok t => (⟨Json.obj [("analysis", Json.str t)], 200⟩, true)

/-! ## Helper lemmas -/

/-- The text fold of `extract_text_from_pdf` is the concatenation of the page
texts in page order. -/
theorem extract_text_from_pdf_eq_join (doc : List Page) :
    extract_text_from_pdf doc = String.join (doc.map Page.text) := by
  simp [extract_text_from_pdf, String.join, List.foldl_map]

/-- C1.  `process_uploaded_file` (app.py and api.py) branches on the declared
content type: for `application/pdf` the result has type `'pdf'`, its text is
the concatenation of all page texts in page order, and its image is rendered
from the first page; for every other content type the result has type
`'image'`, its image is the decoded uploaded bytes, and its text is `None`. -/
theorem process_uploaded_file_branches (fitzOpen : String → List Page)
    (f : UploadedFile) :
    (f.contentType = "application/pdf" →
      ∀ p ps, fitzOpen f.bytes = p :: ps →
        app_process_uploaded_file fitzOpen f =
          .ok { type := "pdf"
                image := convert_pdf_page_to_image p
                text := some (String.join ((p :: ps).map Page.text))
                document := some (p :: ps)
                page_count := (p :: ps).length } ∧
        api_process_uploaded_file fitzOpen f =
          .ok { type := "pdf"
                image := convert_pdf_page_to_image p
                text := some (String.join ((p :: ps).map Page.text)) }) ∧
    (f.contentType ≠ "application/pdf" →
      app_process_uploaded_file fitzOpen f =
        .ok { type := "image", image := Image_open f.bytes,
              text := none, document := none, page_count := 1 } ∧
      api_process_uploaded_file fitzOpen f =
        .ok { type := "image", image := Image_open f.bytes, text := none }) := by
  constructor
  · intro hct p ps hopen
    constructor <;>
      simp [app_process_uploaded_file, api_process_uploaded_file, hct, hopen,
        extract_text_from_pdf_eq_join]
  · intro hct
    constructor <;>
      simp [app_process_uploaded_file, api_process_uploaded_file, hct]

/-- Witness for C1: a two-page PDF upload and a JPEG upload, both evaluated
concretely. -/
theorem process_uploaded_file_branches_witness :
    (app_process_uploaded_file (fun _ => [⟨"t1", "i1"⟩, ⟨"t2", "i2"⟩])
        ⟨"application/pdf", "B"⟩ =
      .ok { type := "pdf"
            image := convert_pdf_page_to_image ⟨"t1", "i1"⟩
            text := some (String.join ([(⟨"t1", "i1"⟩ : Page), ⟨"t2", "i2"⟩].map Page.text))
            document := some [⟨"t1", "i1"⟩, ⟨"t2", "i2"⟩]
            page_count := ([(⟨"t1", "i1"⟩ : Page), ⟨"t2", "i2"⟩]).length } ∧
     api_process_uploaded_file (fun _ => [⟨"t1", "i1"⟩, ⟨"t2", "i2"⟩])
        ⟨"application/pdf", "B"⟩ =
      .ok { type := "pdf"
            image := convert_pdf_page_to_image ⟨"t1", "i1"⟩
            text := some (String.join ([(⟨"t1", "i1"⟩ : Page), ⟨"t2", "i2"⟩].map Page.text)) }) ∧
    (app_process_uploaded_file (fun _ => []) ⟨"image/jpeg", "J"⟩ =
      .ok { type := "image", image := Image_open "J",
            text := none, document := none, page_count := 1 } ∧
     api_process_uploaded_file (fun _ => []) ⟨"image/jpeg", "J"⟩ =
      .ok { type := "image", image := Image_open "J", text := none }) := by
  constructor
  · exact (process_uploaded_file_branches (fun _ => [⟨"t1", "i1"⟩, ⟨"t2", "i2"⟩])
      ⟨"application/pdf", "B"⟩).1 rfl ⟨"t1", "i1"⟩ [⟨"t2", "i2"⟩] rfl
  · exact (process_uploaded_file_branches (fun _ => []) ⟨"image/jpeg", "J"⟩).2
      (by decide)

set_option maxRecDepth 40000 in
/-- C2 (counterexample / code behaviour).  In deploy_app.py the lookup key is
`document_type.lower().replace(" ", "")`, so the radio categories
"Supplier Bill", "Transporter Invoice" and "Generic Document" produce the keys
"supplierbill", "transporterinvoice" and "genericdocument" — none of which is
an entry of the prompts table — and all three fall back to the generic
template, contrary to the claimed supplier/transporter dispatch.  Only the
"Document with Prompt" branch behaves as claimed. -/
theorem deploy_meta_prompt_key_mismatch :
    deploy_meta_prompt "Supplier Bill" "" = deploy_prompt_generic ∧
    deploy_meta_prompt "Transporter Invoice" "" = deploy_prompt_generic ∧
    deploy_meta_prompt "Generic Document" "" = deploy_prompt_generic ∧
    deploy_prompt_generic ≠ deploy_prompt_supplier ∧
    deploy_prompt_generic ≠ deploy_prompt_transporter ∧
    "Supplier Bill" ∈ deploy_document_type_options ∧
    "Transporter Invoice" ∈ deploy_document_type_options ∧
    deploy_prompts_get "supplierbill" = none ∧
    deploy_prompts_get "transporterinvoice" = none ∧
    pyRemoveSpaces (pyLower "Supplier Bill") = "supplierbill" ∧
    pyRemoveSpaces (pyLower "Transporter Invoice") = "transporterinvoice" ∧
    deploy_meta_prompt "Document with Prompt" "X" = pyFormat1 deploy_prompt_custom "X" := by
  refine ⟨by decide, by decide, by decide, by decide, by decide, by decide,
    by decide, by decide, by decide, by decide, by decide, rfl⟩

/-- C3 (counterexample / code behaviour).  app.py offers the AI-service radio
options "Gemini Pro" and "OpenAI GPT-4o" but dispatches on
`ai_service == "Google Gemini"`, a string that is not among the options; both
options therefore invoke `get_openai_response`, and `get_gemini_response` is
unreachable from the UI. -/
theorem app_main_dispatch_never_gemini :
    app_main_dispatch "Gemini Pro" = ProviderCall.openai ∧
    app_main_dispatch "OpenAI GPT-4o" = ProviderCall.openai ∧
    "Gemini Pro" ∈ app_ai_service_options ∧
    "Google Gemini" ∉ app_ai_service_options ∧
    (∀ s, app_main_dispatch s = ProviderCall.gemini ↔ s = "Google Gemini") := by
  refine ⟨by decide, by decide, by decide, by decide, ?_⟩
  intro s
  constructor
  · intro h
    by_contra hne
    simp [app_main_dispatch, hne] at h
  · intro h
    simp [app_main_dispatch, h]

/-- C4.  For every processed file, each provider request is shaped as claimed:
the Gemini content lists (app.py `get_gemini_response`, api.py
`analyze_with_gemini`, deploy_app.py `get_model_response` google branch) begin
with the instruction prompt, contain the extracted PDF text exactly when the
file is a PDF, then the rendered page image; the OpenAI message lists (app.py
`get_openai_response`, api.py `analyze_with_openai`, deploy_app.py OpenAI
branch) are a single user-role message whose content begins with the text
prompt, contains the PDF text exactly when the file is a PDF, and ends with a
data-URL image whose payload is the base64 of the PNG-serialized page
image. -/
theorem provider_request_shapes (fitzOpen : String → List Page)
    (png : PILImage → String) (b64 : String → String)
    (f : UploadedFile) (ip up dt cp : String) :
    (f.contentType = "application/pdf" →
      ∀ p ps, fitzOpen f.bytes = p :: ps →
        (app_process_uploaded_file fitzOpen f).map
            (fun fd => app_gemini_content ip fd up dt) =
          .ok [GPart.text (ip ++ "\n" ++ app_gemini_meta_prompt dt),
               GPart.text ("PDF Text Content:\n" ++ extract_text_from_pdf (p :: ps) ++ "\n"),
               GPart.image (convert_pdf_page_to_image p),
               GPart.text up] ∧
        (app_process_uploaded_file fitzOpen f).map
            (fun fd => app_openai_messages png b64 fd up dt) =
          .ok [{ role := "user"
                 content :=
                   [OPart.text ("Please analyze this document with the following context: "
                       ++ (if dt = "Transporter Invoice" then prompts_transporter else prompts_supplier)
                       ++ "\nQuestion: " ++ up),
                    OPart.text ("Document text content:\n" ++ extract_text_from_pdf (p :: ps)),
                    OPart.image_url ("data:image/png;base64,"
                       ++ b64 (png (convert_pdf_page_to_image p)))] }] ∧
        (api_process_uploaded_file fitzOpen f).map
            (fun fd => api_gemini_content fd) =
          .ok [GPart.text api_gemini_input_prompt,
               GPart.text ("PDF Text Content:\n" ++ extract_text_from_pdf (p :: ps) ++ "\n"),
               GPart.image (convert_pdf_page_to_image p)] ∧
        (api_process_uploaded_file fitzOpen f).map
            (fun fd => api_openai_messages png b64 fd) =
          .ok [{ role := "user"
                 content :=
                   [OPart.text api_openai_text_prompt,
                    OPart.text ("Document text content:\n" ++ extract_text_from_pdf (p :: ps)),
                    OPart.image_url ("data:image/png;base64,"
                       ++ b64 (png (convert_pdf_page_to_image p)))] }] ∧
        (app_process_uploaded_file fitzOpen f).map
            (fun fd => deploy_gemini_content ip fd up dt cp) =
          .ok [GPart.text (ip ++ "\n" ++ deploy_meta_prompt dt cp),
               GPart.text ("PDF Text Content:\n" ++ extract_text_from_pdf (p :: ps) ++ "\n"),
               GPart.image (convert_pdf_page_to_image p),
               GPart.text up] ∧
        (app_process_uploaded_file fitzOpen f).map
            (fun fd => deploy_openai_messages png b64 ip fd dt cp) =
          .ok [{ role := "user"
                 content :=
                   [OPart.text (ip ++ "\n" ++ deploy_meta_prompt dt cp),
                    OPart.text ("PDF Text Content:\n" ++ extract_text_from_pdf (p :: ps) ++ "\n"),
                    OPart.image_url ("data:image/jpeg;base64,"
                       ++ b64 (png (convert_pdf_page_to_image p)))] }]) ∧
    (f.contentType ≠ "application/pdf" →
        (app_process_uploaded_file fitzOpen f).map
            (fun fd => app_gemini_content ip fd up dt) =
          .ok [GPart.text (ip ++ "\n" ++ app_gemini_meta_prompt dt),
               GPart.image (Image_open f.bytes),
               GPart.text up] ∧
        (app_process_uploaded_file fitzOpen f).map
            (fun fd => app_openai_messages png b64 fd up dt) =
          .ok [{ role := "user"
                 content :=
                   [OPart.text ("Please analyze this document with the following context: "
                       ++ (if dt = "Transporter Invoice" then prompts_transporter else prompts_supplier)
                       ++ "\nQuestion: " ++ up),
                    OPart.image_url ("data:image/png;base64,"
                       ++ b64 (png (Image_open f.bytes)))] }] ∧
        (api_process_uploaded_file fitzOpen f).map
            (fun fd => api_gemini_content fd) =
          .ok [GPart.text api_gemini_input_prompt,
               GPart.image (Image_open f.bytes)] ∧
        (api_process_uploaded_file fitzOpen f).map
            (fun fd => api_openai_messages png b64 fd) =
          .ok [{ role := "user"
                 content :=
                   [OPart.text api_openai_text_prompt,
                    OPart.image_url ("data:image/png;base64,"
                       ++ b64 (png (Image_open f.bytes)))] }] ∧
        (app_process_uploaded_file fitzOpen f).map
            (fun fd => deploy_gemini_content ip fd up dt cp) =
          .ok [GPart.text (ip ++ "\n" ++ deploy_meta_prompt dt cp),
               GPart.image (Image_open f.bytes),
               GPart.text up] ∧
        (app_process_uploaded_file fitzOpen f).map
            (fun fd => deploy_openai_messages png b64 ip fd dt cp) =
          .ok [{ role := "user"
                 content :=
                   [OPart.text (ip ++ "\n" ++ deploy_meta_prompt dt cp),
                    OPart.image_url ("data:image/jpeg;base64,"
                       ++ b64 (png (Image_open f.bytes)))] }]) := by
  constructor
  · intro hct p ps hopen
    refine ⟨?_, ?_, ?_, ?_, ?_, ?_⟩ <;>
      simp [app_process_uploaded_file, api_process_uploaded_file, hct, hopen,
        app_gemini_content, app_openai_messages, api_gemini_content,
        api_openai_messages, deploy_gemini_content, deploy_openai_messages,
        encode_image_to_base64, optStr, List.insertIdx, Except.map]
  · intro hct
    refine ⟨?_, ?_, ?_, ?_, ?_, ?_⟩ <;>
      simp [app_process_uploaded_file, api_process_uploaded_file, hct,
        app_gemini_content, app_openai_messages, api_gemini_content,
        api_openai_messages, deploy_gemini_content, deploy_openai_messages,
        encode_image_to_base64, optStr, List.insertIdx, Except.map]

/-- Witness for C4: a one-page PDF upload evaluated concretely (with
`PILImage.data` as the PNG serializer and `id` as base64). -/
theorem provider_request_shapes_witness :
    (app_process_uploaded_file (fun _ => [⟨"T", "R"⟩]) ⟨"application/pdf", "B"⟩).map
        (fun fd => app_gemini_content "I" fd "U" "Supplier Bill") =
      .ok [GPart.text ("I" ++ "\n" ++ app_gemini_meta_prompt "Supplier Bill"),
           GPart.text ("PDF Text Content:\n" ++ extract_text_from_pdf [⟨"T", "R"⟩] ++ "\n"),
           GPart.image (convert_pdf_page_to_image ⟨"T", "R"⟩),
           GPart.text "U"] :=
  ((provider_request_shapes (fun _ => [⟨"T", "R"⟩]) PILImage.data id
      ⟨"application/pdf", "B"⟩ "I" "U" "Supplier Bill" "").1 rfl ⟨"T", "R"⟩ [] rfl).1

/-- C5.  `analyze_invoice` (migration.py) is total — every exception path
(open failure, zero-page index error, HTTP failure) is caught — and its result
is always a `json.dumps` of some JSON value: the parsed response re-serialized
when `json.loads` succeeds, `{"raw_analysis": <raw text>}` when parsing fails,
and `{"error": <message>}` when any other exception occurred. -/
theorem analyze_invoice_total_json (openDoc : String → Except String (List Page))
    (generate : List GPart → Except String String)
    (loads : String → Option Json) (dumps : Json → String) (pdf_path : String) :
    (∃ j, analyze_invoice openDoc generate loads dumps pdf_path = dumps j) ∧
    (∀ e, openDoc pdf_path = .error e →
      analyze_invoice openDoc generate loads dumps pdf_path =
        dumps (Json.obj [("error", Json.str e)])) ∧
    (openDoc pdf_path = .ok [] →
      analyze_invoice openDoc generate loads dumps pdf_path =
        dumps (Json.obj [("error", Json.str "IndexError: page 0 is not in document")])) ∧
    (∀ p ps e, openDoc pdf_path = .ok (p :: ps) →
      generate (migration_gemini_content (extract_text_from_pdf (p :: ps))
          (convert_pdf_page_to_image p)) = .error e →
      analyze_invoice openDoc generate loads dumps pdf_path =
        dumps (Json.obj [("error", Json.str e)])) ∧
    (∀ p ps t, openDoc pdf_path = .ok (p :: ps) →
      generate (migration_gemini_content (extract_text_from_pdf (p :: ps))
          (convert_pdf_page_to_image p)) = .ok t →
      (∀ j, loads t = some j →
        analyze_invoice openDoc generate loads dumps pdf_path = dumps j) ∧
      (loads t = none →
        analyze_invoice openDoc generate loads dumps pdf_path =
          dumps (Json.obj [("raw_analysis", Json.str t)]))) := by
  refine ⟨?_, ?_, ?_, ?_, ?_⟩
  · rcases hod : openDoc pdf_path with e | doc
    · exact ⟨Json.obj [("error", Json.str e)], by simp [analyze_invoice, hod]⟩
    · cases doc with
      | nil =>
        exact ⟨Json.obj [("error", Json.str "IndexError: page 0 is not in document")],
          by simp [analyze_invoice, hod]⟩
      | cons p ps =>
        rcases hg : generate (migration_gemini_content (extract_text_from_pdf (p :: ps))
            (convert_pdf_page_to_image p)) with e | t
        · exact ⟨Json.obj [("error", Json.str e)], by simp [analyze_invoice, hod, hg]⟩
        · rcases hl : loads t with _ | j
          · exact ⟨Json.obj [("raw_analysis", Json.str t)],
              by simp [analyze_invoice, hod, hg, hl]⟩
          · exact ⟨j, by simp [analyze_invoice, hod, hg, hl]⟩
  · intro e hod; simp [analyze_invoice, hod]
  · intro hod; simp [analyze_invoice, hod]
  · intro p ps e hod hg; simp [analyze_invoice, hod, hg]
  · intro p ps t hod hg
    exact ⟨fun j hl => by simp [analyze_invoice, hod, hg, hl],
           fun hl => by simp [analyze_invoice, hod, hg, hl]⟩

/-- Witness for C5: concrete oracles where the model response does not parse
as JSON, so the raw-analysis fallback is serialized. -/
theorem analyze_invoice_total_json_witness :
    analyze_invoice (fun _ => .ok [⟨"T", "R"⟩]) (fun _ => .ok "RESP") (fun _ => none)
      (fun _ => "D") "inv.pdf" = "D" :=
  ((analyze_invoice_total_json (fun _ => .ok [⟨"T", "R"⟩]) (fun _ => .ok "RESP")
      (fun _ => none) (fun _ => "D") "inv.pdf").2.2.2.2 ⟨"T", "R"⟩ [] "RESP"
      rfl rfl).2 rfl

/-! ## Persistence-loop lemmas (migration.py) -/

/-- A file already present in the store is skipped: the loop body leaves the
store unchanged. -/
theorem process_step_of_mem (attempt : String → Except String String)
    (db : List DBRow) (f : String) (h : f ∈ dbNames db) :
    process_step attempt db f = db := by
  simp [process_step, h]

/-- A failing `try` block (exception caught by the `except ... continue`)
leaves the store unchanged. -/
theorem process_step_of_error (attempt : String → Except String String)
    (db : List DBRow) (f e : String) (h : attempt f = .error e) :
    process_step attempt db f = db := by
  unfold process_step
  split
  · rfl
  · rw [h]

/-- The loop only appends rows, and every appended row has a file name that
was not in the store when the loop started. -/
theorem process_invoices_extends (attempt : String → Except String String)
    (files : List String) :
    ∀ db : List DBRow, ∃ t, process_invoices attempt db files = db ++ t ∧
      ∀ r ∈ t, r.file_name ∉ dbNames db := by
  induction files with
  | nil => intro db; exact ⟨[], by simp [process_invoices]⟩
  | cons f fs ih =>
    intro db
    have hstep : process_invoices attempt db (f :: fs) =
        process_invoices attempt (process_step attempt db f) fs := rfl
    by_cases hmem : f ∈ dbNames db
    · rw [hstep, process_step_of_mem attempt db f hmem]; exact ih db
    · rcases ha : attempt f with e | a
      · rw [hstep, process_step_of_error attempt db f e ha]; exact ih db
      · have hsf : process_step attempt db f = db ++ [⟨f, a⟩] := by
          simp [process_step, hmem, ha]
        obtain ⟨t, ht, hnot⟩ := ih (db ++ [⟨f, a⟩])
        refine ⟨⟨f, a⟩ :: t, ?_, ?_⟩
        · rw [hstep, hsf, ht]; simp
        · intro r hr
          rcases List.mem_cons.mp hr with hr | hr
          · simpa [hr] using hmem
          · intro hin
            exact hnot r hr (by simp [dbNames] at hin ⊢; exact Or.inl hin)

/-- The loop preserves file-name uniqueness of the store. -/
theorem process_invoices_names_nodup (attempt : String → Except String String)
    (files : List String) :
    ∀ db : List DBRow, (dbNames db).Nodup →
      (dbNames (process_invoices attempt db files)).Nodup := by
  induction files with
  | nil => intro db h; simpa [process_invoices] using h
  | cons f fs ih =>
    intro db h
    have hstep : process_invoices attempt db (f :: fs) =
        process_invoices attempt (process_step attempt db f) fs := rfl
    rw [hstep]
    refine ih _ ?_
    unfold process_step
    split
    · exact h
    · rcases ha : attempt f with e | a
      · exact h
      · rename_i hmem
        simp [dbNames, List.nodup_append] at h ⊢
        exact ⟨h, by simpa [dbNames] using hmem⟩

/-- Traced loop body, skip case. -/
theorem process_step_traced_mem (attempt : String → Except String String)
    (st : List DBRow × List String) (f : String) (h : f ∈ dbNames st.1) :
    process_step_traced attempt st f = st := by
  simp [process_step_traced, h]

/-- Traced loop body, attempted-and-failed case. -/
theorem process_step_traced_err (attempt : String → Except String String)
    (st : List DBRow × List String) (f e : String) (hmem : f ∉ dbNames st.1)
    (ha : attempt f = .error e) :
    process_step_traced attempt st f = (st.1, st.2 ++ [f]) := by
  simp [process_step_traced, hmem, ha]

/-- Traced loop body, attempted-and-inserted case. -/
theorem process_step_traced_ok (attempt : String → Except String String)
    (st : List DBRow × List String) (f a : String) (hmem : f ∉ dbNames st.1)
    (ha : attempt f = .ok a) :
    process_step_traced attempt st f = (st.1 ++ [⟨f, a⟩], st.2 ++ [f]) := by
  simp [process_step_traced, hmem, ha]

/-- The sequence of analysis attempts is a subsequence of the input file
list: files are attempted in list order, each at most as often as it
occurs. -/
theorem traced_trace_sublist (attempt : String → Except String String)
    (files : List String) :
    ∀ st : List DBRow × List String,
      ∃ s, (files.foldl (process_step_traced attempt) st).2 = st.2 ++ s ∧
        s.Sublist files := by
  induction files with
  | nil => intro st; exact ⟨[], by simp⟩
  | cons f fs ih =>
    intro st
    have hstep : (f :: fs).foldl (process_step_traced attempt) st =
        fs.foldl (process_step_traced attempt) (process_step_traced attempt st f) := rfl
    rw [hstep]
    by_cases hmem : f ∈ dbNames st.1
    · rw [process_step_traced_mem attempt st f hmem]
      obtain ⟨s, hs, hsub⟩ := ih st
      exact ⟨s, hs, hsub.cons f⟩
    · rcases ha : attempt f with e | a
      · rw [process_step_traced_err attempt st f e hmem ha]
        obtain ⟨s, hs, hsub⟩ := ih (st.1, st.2 ++ [f])
        exact ⟨f :: s, by simpa using hs, hsub.cons₂ f⟩
      · rw [process_step_traced_ok attempt st f a hmem ha]
        obtain ⟨s, hs, hsub⟩ := ih (st.1 ++ [⟨f, a⟩], st.2 ++ [f])
        exact ⟨f :: s, by simpa using hs, hsub.cons₂ f⟩

/-- A file whose name is in the store at loop entry is never analysed. -/
theorem traced_no_attempt_of_mem (attempt : String → Except String String)
    (files : List String) :
    ∀ (st : List DBRow × List String) (f : String), f ∈ dbNames st.1 →
      f ∈ (files.foldl (process_step_traced attempt) st).2 → f ∈ st.2 := by
  induction files with
  | nil => intro st f _ h; simpa using h
  | cons g fs ih =>
    intro st f hf h
    have hstep : (g :: fs).foldl (process_step_traced attempt) st =
        fs.foldl (process_step_traced attempt) (process_step_traced attempt st g) := rfl
    rw [hstep] at h
    by_cases hmem : g ∈ dbNames st.1
    · rw [process_step_traced_mem attempt st g hmem] at h
      exact ih st f hf h
    · have hfg : f ≠ g := fun hfg => hmem (hfg ▸ hf)
      rcases ha : attempt g with e | a
      · rw [process_step_traced_err attempt st g e hmem ha] at h
        have := ih (st.1, st.2 ++ [g]) f hf h
        simpa [hfg] using this
      · rw [process_step_traced_ok attempt st g a hmem ha] at h
        have hf' : f ∈ dbNames (st.1 ++ [⟨g, a⟩]) := by
          simp [dbNames] at hf ⊢; exact Or.inl hf
        have := ih (st.1 ++ [⟨g, a⟩], st.2 ++ [g]) f hf' h
        simpa [hfg] using this

/-- C6.  The persistence path preserves file-name uniqueness and the
insert-once/read-many lifecycle: starting from a store with unique file names,
`process_invoices` keeps the names unique, never inserts a row whose file name
already exists, only appends (no existing row is updated or deleted), and a
file already present is skipped before any analysis call. -/
theorem store_insert_once_invariant (attempt : String → Except String String)
    (db : List DBRow) (files : List String) (h : (dbNames db).Nodup) :
    (dbNames (process_invoices attempt db files)).Nodup ∧
    (∃ inserted, process_invoices attempt db files = db ++ inserted ∧
      ∀ r ∈ inserted, r.file_name ∉ dbNames db) ∧
    (∀ f ∈ dbNames db, f ∉ (process_invoices_traced attempt db files).2) := by
  refine ⟨process_invoices_names_nodup attempt files db h,
    process_invoices_extends attempt files db, ?_⟩
  intro f hf hmem
  have := traced_no_attempt_of_mem attempt files (db, []) f hf
    (by simpa [process_invoices_traced] using hmem)
  simp at this

/-- Witness for C6: a concrete store with one row and a batch containing the
stored file, a new file and a failing file. -/
theorem store_insert_once_invariant_witness :
    (dbNames (process_invoices
        (fun s => if s = "bad.pdf" then Except.error "boom" else Except.ok "A")
        [⟨"a.pdf", "x"⟩] ["a.pdf", "b.pdf", "bad.pdf"])).Nodup ∧
    "a.pdf" ∉ (process_invoices_traced
        (fun s => if s = "bad.pdf" then Except.error "boom" else Except.ok "A")
        [⟨"a.pdf", "x"⟩] ["a.pdf", "b.pdf", "bad.pdf"]).2 := by
  have h := store_insert_once_invariant
    (fun s => if s = "bad.pdf" then Except.error "boom" else Except.ok "A")
    [⟨"a.pdf", "x"⟩] ["a.pdf", "b.pdf", "bad.pdf"] (by decide)
  exact ⟨h.1, h.2.2 "a.pdf" (by decide)⟩

/-- C7.  `process_invoices` is one sequential fold over the batch (processing
a concatenation is processing the first part, then the second from the
resulting store), the analysis is attempted at most once per file (for a
duplicate-free batch the attempt trace is duplicate-free, and it is always a
subsequence of the batch — no retry), and a file whose `try` block fails
contributes nothing while processing continues with the remaining files
unchanged. -/
theorem process_invoices_sequential_once (attempt : String → Except String String)
    (db : List DBRow) (files : List String) :
    (∀ fs1 fs2 : List String, process_invoices attempt db (fs1 ++ fs2) =
      process_invoices attempt (process_invoices attempt db fs1) fs2) ∧
    ((process_invoices_traced attempt db files).2.Sublist files) ∧
    (files.Nodup → (process_invoices_traced attempt db files).2.Nodup) ∧
    (∀ f fs e, attempt f = .error e →
      process_invoices attempt db (f :: fs) = process_invoices attempt db fs) := by
  obtain ⟨s, hs, hsub⟩ := traced_trace_sublist attempt files (db, [])
  have htr : (process_invoices_traced attempt db files).2 = s := by
    simpa [process_invoices_traced] using hs
  refine ⟨?_, ?_, ?_, ?_⟩
  · intro fs1 fs2; simp [process_invoices, List.foldl_append]
  · rw [htr]; exact hsub
  · intro hnd; rw [htr]; exact hnd.sublist hsub
  · intro f fs e ha
    show fs.foldl (process_step attempt) (process_step attempt db f) =
      fs.foldl (process_step attempt) db
    rw [process_step_of_error attempt db f e ha]

/-- Witness for C7: a failing first file does not prevent the processing of
the second. -/
theorem process_invoices_sequential_once_witness :
    process_invoices
        (fun s => if s = "bad.pdf" then Except.error "boom" else Except.ok "A")
        [⟨"a.pdf", "x"⟩] ("bad.pdf" :: ["b.pdf"]) =
      process_invoices
        (fun s => if s = "bad.pdf" then Except.error "boom" else Except.ok "A")
        [⟨"a.pdf", "x"⟩] ["b.pdf"] :=
  (process_invoices_sequential_once
      (fun s => if s = "bad.pdf" then Except.error "boom" else Except.ok "A")
      [⟨"a.pdf", "x"⟩] ["b.pdf"]).2.2.2 "bad.pdf" ["b.pdf"] "boom" (by simp)

/-- C8.  Every `get_pixmap` call site in the repository — app.py, api.py,
deploy_app.py and migration.py `convert_pdf_page_to_image`, the page loop of
pippin_demo.py `convert_pdf_pages_to_images`, and the preview loop of
table_view.py `get_pdf_preview` — uses the same fixed matrix
`fitz.Matrix(300/72, 300/72)` (scale 25/6 = 300 DPI in both dimensions),
independent of the input document, page, or caller. -/
theorem pixmap_matrix_fixed :
    (∀ p : Page, app_pixmap_matrix p = ⟨300/72, 300/72⟩) ∧
    (∀ p : Page, api_pixmap_matrix p = ⟨300/72, 300/72⟩) ∧
    (∀ p : Page, deploy_pixmap_matrix p = ⟨300/72, 300/72⟩) ∧
    (∀ p : Page, migration_pixmap_matrix p = ⟨300/72, 300/72⟩) ∧
    (∀ (doc : List Page) (n : Nat), pippin_pixmap_matrix doc n = ⟨300/72, 300/72⟩) ∧
    (∀ (fp : String) (n : Nat), tableview_pixmap_matrix fp n = ⟨300/72, 300/72⟩) ∧
    (FitzMatrix.a ⟨300/72, 300/72⟩ = 25/6 ∧ FitzMatrix.b ⟨300/72, 300/72⟩ = 25/6) := by
  refine ⟨fun _ => rfl, fun _ => rfl, fun _ => rfl, fun _ => rfl,
    fun _ _ => rfl, fun _ _ => rfl, by norm_num, by norm_num⟩

/-- Witness for C8: two concrete call sites evaluated at concrete inputs. -/
theorem pixmap_matrix_fixed_witness :
    app_pixmap_matrix ⟨"T", "R"⟩ = ⟨300/72, 300/72⟩ ∧
    tableview_pixmap_matrix "inv.pdf" 2 = ⟨300/72, 300/72⟩ :=
  ⟨pixmap_matrix_fixed.1 ⟨"T", "R"⟩, pixmap_matrix_fixed.2.2.2.2.2.1 "inv.pdf" 2⟩

/-- C9.  Both Flask endpoints always produce a JSON body and never propagate
an exception: a missing `file` part or an empty file name yields status 400
with an error body and the provider API is not invoked (`false` flag); any
later exception yields status 500 with an `error` key; otherwise status 200
with an `analysis` key. -/
theorem flask_endpoints_json (fitzOpen : String → List Page)
    (png : PILImage → String) (b64 : String → String)
    (generate : List GPart → Except String String)
    (chat : List OMessage → Except String String)
    (req : FlaskRequest) :
    (req.file = none →
      analyze_with_gemini fitzOpen generate req =
        (⟨Json.obj [("error", Json.str "No file provided")], 400⟩, false) ∧
      analyze_with_openai fitzOpen png b64 chat req =
        (⟨Json.obj [("error", Json.str "No file provided")], 400⟩, false)) ∧
    (∀ fl, req.file = some fl → fl.filename = "" →
      analyze_with_gemini fitzOpen generate req =
        (⟨Json.obj [("error", Json.str "No file selected")], 400⟩, false) ∧
      analyze_with_openai fitzOpen png b64 chat req =
        (⟨Json.obj [("error", Json.str "No file selected")], 400⟩, false)) ∧
    (∀ fl, req.file = some fl → fl.filename ≠ "" →
      ((∃ e called, analyze_with_gemini fitzOpen generate req =
          (⟨Json.obj [("error", Json.str e)], 500⟩, called)) ∨
       (∃ t, analyze_with_gemini fitzOpen generate req =
          (⟨Json.obj [("analysis", Json.str t)], 200⟩, true))) ∧
      ((∃ e called, analyze_with_openai fitzOpen png b64 chat req =
          (⟨Json.obj [("error", Json.str e)], 500⟩, called)) ∨
       (∃ t, analyze_with_openai fitzOpen png b64 chat req =
          (⟨Json.obj [("analysis", Json.str t)], 200⟩, true)))) := by
  refine ⟨?_, ?_, ?_⟩
  · intro h
    constructor <;> simp [analyze_with_gemini, analyze_with_openai, h]
  · intro fl hfl hname
    constructor <;> simp [analyze_with_gemini, analyze_with_openai, hfl, hname]
  · intro fl hfl hname
    constructor
    · rcases hp : api_process_uploaded_file fitzOpen ⟨fl.contentType, fl.bytes⟩ with e | fd
      · exact Or.inl ⟨e, false, by simp [analyze_with_gemini, hfl, hname, hp]⟩
      · rcases hg : generate (api_gemini_content fd) with e | t
        · exact Or.inl ⟨e, true, by simp [analyze_with_gemini, hfl, hname, hp, hg]⟩
        · exact Or.inr ⟨t, by simp [analyze_with_gemini, hfl, hname, hp, hg]⟩
    · rcases hp : api_process_uploaded_file fitzOpen ⟨fl.contentType, fl.bytes⟩ with e | fd
      · exact Or.inl ⟨e, false, by simp [analyze_with_openai, hfl, hname, hp]⟩
      · rcases hc : chat (api_openai_messages png b64 fd) with e | t
        · exact Or.inl ⟨e, true, by simp [analyze_with_openai, hfl, hname, hp, hc]⟩
        · exact Or.inr ⟨t, by simp [analyze_with_openai, hfl, hname, hp, hc]⟩

/-- Witness for C9: a request without a file part, both endpoints evaluated
concretely. -/
theorem flask_endpoints_json_witness :
    analyze_with_gemini (fun _ => []) (fun _ => Except.ok "G") ⟨none⟩ =
      (⟨Json.obj [("error", Json.str "No file provided")], 400⟩, false) ∧
    analyze_with_openai (fun _ => []) PILImage.data id (fun _ => Except.ok "O") ⟨none⟩ =
      (⟨Json.obj [("error", Json.str "No file provided")], 400⟩, false) :=
  flask_endpoints_json (fun _ => []) PILImage.data id (fun _ => Except.ok "G")
    (fun _ => Except.ok "O") ⟨none⟩ |>.1 rfl

/-- C10.  `process_uploaded_file` requires a PDF upload to have at least one
page: with at least one page both versions succeed and render the first page;
with zero pages the `pdf_document[0]` access raises (modelled as `.error`)
instead of returning a result. -/
theorem pdf_first_page_required (fitzOpen : String → List Page)
    (f : UploadedFile) (h : f.contentType = "application/pdf") :
    (∀ p ps, fitzOpen f.bytes = p :: ps →
      (∃ fd, app_process_uploaded_file fitzOpen f = .ok fd ∧
        fd.image = convert_pdf_page_to_image p) ∧
      (∃ afd, api_process_uploaded_file fitzOpen f = .ok afd ∧
        afd.image = convert_pdf_page_to_image p)) ∧
    (fitzOpen f.bytes = [] →
      app_process_uploaded_file fitzOpen f =
        .error "IndexError: page 0 is not in document" ∧
      api_process_uploaded_file fitzOpen f =
        .error "IndexError: page 0 is not in document") := by
  constructor
  · intro p ps hopen
    have happ : app_process_uploaded_file fitzOpen f =
        .ok { type := "pdf"
              image := convert_pdf_page_to_image p
              text := some (extract_text_from_pdf (p :: ps))
              document := some (p :: ps)
              page_count := (p :: ps).length } := by
      simp [app_process_uploaded_file, h, hopen]
    have hapi : api_process_uploaded_file fitzOpen f =
        .ok { type := "pdf"
              image := convert_pdf_page_to_image p
              text := some (extract_text_from_pdf (p :: ps)) } := by
      simp [api_process_uploaded_file, h, hopen]
    exact ⟨⟨_, happ, rfl⟩, ⟨_, hapi, rfl⟩⟩
  · intro hopen
    constructor <;> simp [app_process_uploaded_file, api_process_uploaded_file, h, hopen]

/-- Witness for C10: a one-page PDF succeeds, a zero-page PDF raises. -/
theorem pdf_first_page_required_witness :
    (∃ fd, app_process_uploaded_file (fun _ => [⟨"T", "R"⟩]) ⟨"application/pdf", "B"⟩ =
        .ok fd ∧ fd.image = convert_pdf_page_to_image ⟨"T", "R"⟩) ∧
    app_process_uploaded_file (fun _ => []) ⟨"application/pdf", "B"⟩ =
      .error "IndexError: page 0 is not in document" := by
  constructor
  · exact ((pdf_first_page_required (fun _ => [⟨"T", "R"⟩])
      ⟨"application/pdf", "B"⟩ rfl).1 ⟨"T", "R"⟩ [] rfl).1
  · exact ((pdf_first_page_required (fun _ => []) ⟨"application/pdf", "B"⟩ rfl).2 rfl).1
